import Mathlib

/-!
# Verification of the ollama-rust-android operation-tracking / stream-relay core

Shallow embedding of the download-progress tracker, progress store, status
probe, prompt augmenter and completion relay found in `src/app.rs` and
`src/main.rs`, together with theorems settling the specified properties.

Modelling conventions:
* The Rust `f32` percent field is modelled as `ℚ`; the percent arithmetic in
  the source (`completed as f32 / total as f32 * 100.0`) is exact at every
  value any claim touches.
* The process-wide `HashMap<String, PullProgress>` behind the mutex is
  modelled as a function `String → Option PullProgress`; each locked section
  of the source becomes one pure store-to-store function.
* Timestamps (`SystemTime::now`) are passed in as an explicit `now` argument.
* Decimal formatting of `f64` in `format_bytes` (`{:.1}`) is modelled as
  exact rational rounding; no claim inspects the produced string.
-/

namespace OllamaRust

/-- Rust `str::trim`: strip leading and trailing whitespace.  Modelled on the
character list (the Lean `Char.isWhitespace` standing in for the Rust
`char::is_whitespace`). -/
def strTrim (s : String) : String :=
  String.mk
    (((s.data.dropWhile Char.isWhitespace).reverse.dropWhile
      Char.isWhitespace).reverse)

/-- `PullProgress` from `src/app.rs` (struct at lines 177-187). -/
structure PullProgress where
  model : String
  status : String
  percent : ℚ
  done : Bool
  error : Option String
  bytes_downloaded : Nat
  speed : String
  last_update : Int
  deriving Repr, DecidableEq

/-- The `error` field of an upstream pull JSON line.  The source tests both
`json.get("error").is_some()` (presence, any JSON type) and
`json["error"].as_str()` (string value), so presence and string-ness are
tracked separately. -/
inductive ErrField where
  | absent
  | nonStr
  | str (s : String)
  deriving Repr, DecidableEq

/-- `json.get("error").is_some()` on the modelled line. -/
def ErrField.present : ErrField → Bool
  | .absent => false
  | _ => true

/-- `json["error"].as_str()` on the modelled line. -/
def ErrField.asStr : ErrField → Option String
  | .str s => some s
  | _ => none

/-- One parsed JSON line of the upstream `/api/pull` stream, holding exactly
the fields the source reads: `status`, `total`, `completed`, `error`. -/
structure PullLine where
  status : Option String
  total : Option Nat
  completed : Option Nat
  err : ErrField
  deriving Repr, DecidableEq

/-- The progress store `PULL_PROGRESS : Mutex<HashMap<String, PullProgress>>`
viewed as a map. -/
def Store : Type := String → Option PullProgress

/-- `map.insert(k, v)`. -/
def Store.insert (s : Store) (k : String) (v : PullProgress) : Store :=
  fun k2 => if k2 = k then some v else s k2

/-- The store before any download was requested. -/
def emptyStore : Store := fun _ => none

@[simp] theorem Store.insert_self (s : Store) (k : String) (v : PullProgress) :
    Store.insert s k v k = some v := by
  simp [Store.insert]

/-- One-decimal rendering of `bytes / unit`, modelling the Rust `{:.1}` float
format by exact rational rounding (round half up). -/
def fmtTenths (bytes unit : Nat) : String :=
  let tenths := (bytes * 10 + unit / 2) / unit
  toString (tenths / 10) ++ "." ++ toString (tenths % 10)

/-- `format_bytes` from `src/app.rs` lines 339-353. -/
def format_bytes (bytes : Nat) : String :=
  let kb : Nat := 1024
  let mb : Nat := kb * 1024
  let gb : Nat := mb * 1024
  if bytes ≥ gb then fmtTenths bytes gb ++ " GB"
  else if bytes ≥ mb then fmtTenths bytes mb ++ " MB"
  else if bytes ≥ kb then fmtTenths bytes kb ++ " KB"
  else toString bytes ++ " B"

/-- The per-line store update of the background pull task, `src/app.rs`
lines 261-304: read the previous record, compute percent / speed with
carry-forward, detect the terminal condition, and `map.insert` the new
record unconditionally. -/
def applyPullLine (store : Store) (model_clone : String) (line : PullLine)
    (now : Int) : Store :=
  let status_text := line.status.getD ""
  let total := line.total.getD 0
  let completed := line.completed.getD 0
  let prev := store model_clone
  let prev_speed := (prev.map fun p => p.speed).getD ""
  let prev_percent := (prev.map fun p => p.percent).getD 0
  let percent : ℚ :=
    if total > 0 then ((completed : ℚ) / (total : ℚ)) * 100 else prev_percent
  let speed :=
    if total > 0 && completed > 0 then
      format_bytes completed ++ " / " ++ format_bytes total
    else if !prev_speed.isEmpty then prev_speed
    else ""
  let is_done := status_text == "success" || line.err.present
  let error := line.err.asStr
  Store.insert store model_clone {
    model := model_clone
    status := if is_done && error.isNone then "Complete" else status_text
    percent := if is_done && error.isNone then 100 else percent
    done := is_done
    error := error
    bytes_downloaded := completed
    speed := speed
    last_update := now }

/-- A line read from a chunk of the pull response body: either it parsed as
JSON or `serde_json::from_str` failed and the line is skipped. -/
inductive LineItem where
  | parsed (l : PullLine)
  | bad
  deriving Repr, DecidableEq

/-- One item yielded by `response.bytes_stream()`: a chunk of bytes (split
into lines), or a read error, which `if let Ok(bytes)` silently skips. -/
inductive Chunk where
  | ok (lines : List LineItem)
  | readErr
  deriving Repr, DecidableEq

/-- Outcome of `client.post(".../api/pull").send().await`: the connection
could not be opened, or it opened and yielded a (possibly dropped) stream of
chunks.  The end of the chunk list models the stream ending, whether cleanly
or after a drop. -/
inductive PullConn where
  | failed (msg : String)
  | opened (chunks : List Chunk)
  deriving Repr, DecidableEq

/-- Process one chunk of the pull stream (`src/app.rs` lines 256-307). -/
def applyChunk (model_clone : String) (now : Int) (s : Store) : Chunk → Store
  | .readErr => s
  | .ok lines =>
    lines.foldl
      (fun s li =>
        match li with
        | .bad => s
        | .parsed l => applyPullLine s model_clone l now) s

/-- The detached pull task spawned by `start_model_pull` (`src/app.rs`
lines 244-325): on a failed `send()` it inserts a synthetic terminal error
record; on an opened stream it folds the chunks through the store and then
simply ends. -/
def runTracker (store : Store) (model_clone : String) (conn : PullConn)
    (now : Int) : Store :=
  match conn with
  | .failed msg =>
    Store.insert store model_clone {
      model := model_clone
      status := "Error"
      percent := 0
      done := true
      error := some msg
      bytes_downloaded := 0
      speed := ""
      last_update := 0 }
  | .opened chunks => chunks.foldl (applyChunk model_clone now) store

/-- The record `start_model_pull` both stores and returns for a non-empty id
(`src/app.rs` lines 231-240 and 327-336). -/
def startingRecord (model : String) : PullProgress :=
  { model := model
    status := "Starting..."
    percent := 0
    done := false
    error := none
    bytes_downloaded := 0
    speed := ""
    last_update := 0 }

/-- Observable outcome of the synchronous part of `start_model_pull`:
the returned record, the store after it, whether `get_ollama_status` was
probed, and whether the background pull task was spawned. -/
structure StartPullResult where
  ret : PullProgress
  store : Store
  probed_daemon : Bool
  spawned : Bool

/-- Synchronous part of `start_model_pull` (`src/app.rs` lines 200-241 and
327-336): empty (after trim) ids are rejected immediately with a synthesized
error record, touching neither the daemon nor the store; otherwise the
initial record is inserted and the tracker task spawned. -/
def start_model_pull (store : Store) (model_name : String) : StartPullResult :=
  if strTrim model_name = "" then
    { ret :=
        { model := model_name
          status := "Error"
          percent := 0
          done := true
          error := some "Model name cannot be empty"
          bytes_downloaded := 0
          speed := ""
          last_update := 0 }
      store := store
      probed_daemon := false
      spawned := false }
  else
    let model := strTrim model_name
    { ret := startingRecord model
      store := Store.insert store model (startingRecord model)
      probed_daemon := true
      spawned := true }

/-- `cancel_model_pull` (`src/app.rs` lines 355-378): mark the record
cancelled if one exists, do nothing to the store otherwise, return `true`
either way. -/
def cancel_model_pull (store : Store) (model_name : String) : Store × Bool :=
  let model := strTrim model_name
  match store model with
  | some progress =>
    (Store.insert store model
      { progress with
        done := true
        status := "Cancelled"
        error := some "Download cancelled by user" }, true)
  | none => (store, true)

/-- Rust `str::contains` on the character sequences: `pat` occurs as a
contiguous substring of `hay`. -/
def listContains (pat : List Char) : List Char → Bool
  | [] => pat.isPrefixOf []
  | c :: rest => pat.isPrefixOf (c :: rest) || listContains pat rest

/-- The catalog match test of `check_pull_progress` (`src/app.rs` lines
395-397): `m.starts_with(&model) || m.contains(&model)` over the installed
models reported by `get_ollama_status` (empty when the daemon is down). -/
def modelMatches (models : List String) (model : String) : Bool :=
  models.any fun m =>
    model.toList.isPrefixOf m.toList || listContains model.toList m.toList

/-- `check_pull_progress` (`src/app.rs` lines 380-422), with the installed
catalog (`get_ollama_status().models`) passed in explicitly. -/
def check_pull_progress (store : Store) (models : List String)
    (model_name : String) : PullProgress :=
  let model := strTrim model_name
  match store model with
  | some progress => progress
  | none =>
    if modelMatches models model then
      { model := model
        status := "Complete"
        percent := 100
        done := true
        error := none
        bytes_downloaded := 0
        speed := ""
        last_update := 0 }
    else
      { model := model
        status := "Waiting..."
        percent := 0
        done := false
        error := none
        bytes_downloaded := 0
        speed := ""
        last_update := 0 }

/-- One line of the upstream `/api/generate` stream as the relay reads it
(`src/main.rs` lines 97-105): either it parsed as JSON — carrying
`json["response"].as_str()` and `json["done"].as_bool().unwrap_or(false)` —
or parsing failed and the line is skipped. -/
inductive GenItem where
  | parsed (response : Option String) (done : Bool)
  | bad
  deriving Repr, DecidableEq

/-- An outbound SSE event of the relay: a text fragment, or the terminal
`"__END__"` sentinel. -/
inductive SseEvent where
  | fragment (text : String)
  | sentinel
  deriving Repr, DecidableEq

/-- Events the relay emits for one line (`src/main.rs` lines 98-105): the
`response` fragment if present, then the sentinel if `done` is true.  Note
the source loop does not `break` after yielding the sentinel. -/
def relayLine : GenItem → List SseEvent
  | .bad => []
  | .parsed response d =>
    (match response with
     | some text => [SseEvent.fragment text]
     | none => []) ++
    (if d then [SseEvent.sentinel] else [])

/-- The local-model branch of `stream_handler` (`src/main.rs` lines 96-107):
relay every successfully read line, in order, until the upstream stream
ends. -/
def stream_handler : List GenItem → List SseEvent
  | [] => []
  | l :: ls => relayLine l ++ stream_handler ls

/-- `BraveSearchResult` from `src/app.rs` lines 51-56. -/
structure BraveSearchResult where
  title : String
  url : String
  description : String
  deriving Repr, DecidableEq

/-- `BraveSearchResponse` from `src/app.rs` lines 58-63. -/
structure BraveSearchResponse where
  success : Bool
  results : List BraveSearchResult
  error : Option String
  deriving Repr, DecidableEq

/-- One element of `json["web"]["results"]` as the extraction reads it:
`title`, `url`, `description` string fields, each possibly absent. -/
structure WebItem where
  title : Option String
  url : Option String
  description : Option String
  deriving Repr, DecidableEq

/-- A parsed provider response body; `results = none` models a JSON document
in which `web.results` is not an array. -/
structure WebPayload where
  results : Option (List WebItem)
  deriving Repr, DecidableEq

/-- Outcome of the provider HTTP request in `brave_search`: the send failed,
or a reply with a status code and a body (`none` = body failed to parse as
JSON). -/
inductive HttpReply where
  | sendErr (msg : String)
  | reply (status : Nat) (body : Option WebPayload)
  deriving Repr, DecidableEq

/-- The result extraction of `brave_search` (`src/app.rs` lines 88-102):
take 5, keep items whose `title` and `url` are strings, defaulting
`description` to the empty string. -/
def extractResults (p : WebPayload) : List BraveSearchResult :=
  (p.results.map fun arr =>
    (arr.take 5).filterMap fun r =>
      match r.title, r.url with
      | some t, some u =>
        some { title := t, url := u, description := r.description.getD "" }
      | _, _ => none).getD []

/-- `response.status().is_success()`: a 2xx status. -/
def is2xx (status : Nat) : Bool := 200 ≤ status && status ≤ 299

/-- `brave_search` (`src/app.rs` lines 65-140), with the network modelled as
the explicit `net` argument.  A blank (trimmed-empty) token is rejected
before any request; a 2xx reply with unparseable JSON falls through to the
final "Unknown error" return; non-2xx statuses map 401/429 to specific
messages.  (Rust renders the status with its reason phrase; here only the
number is rendered — no claim reads that string.) -/
def brave_search (query api_token : String) (net : HttpReply) :
    BraveSearchResponse :=
  if (strTrim api_token).isEmpty then
    { success := false, results := [], error := some "API token is required" }
  else
    match net with
    | .sendErr msg =>
      { success := false, results := [], error := some ("Request failed: " ++ msg) }
    | .reply status body =>
      if is2xx status then
        match body with
        | some payload =>
          { success := true, results := extractResults payload, error := none }
        | none =>
          { success := false, results := [], error := some "Unknown error" }
      else
        let error_msg :=
          if status == 401 then "Invalid API token"
          else if status == 429 then "Rate limit exceeded"
          else "API error: " ++ toString status
        { success := false, results := [], error := some error_msg }

/-- The augmented-context text built in `do_send` (`src/app.rs` lines
1146-1160): preamble, numbered results, closing instruction restating the
query. -/
def augmentContext (user_query : String) (results : List BraveSearchResult) :
    String :=
  let item := fun (p : Nat × BraveSearchResult) =>
    toString (p.1 + 1) ++ ". **" ++ p.2.title ++ "**\n   URL: " ++ p.2.url ++
      "\n   " ++ p.2.description ++ "\n\n"
  "I searched the web for your question. Here are the relevant results:\n\n" ++
    String.join (results.enum.map item) ++
    "---\nBased on the above web search results, please answer the following question:\n\n" ++
    user_query

/-- The prompt computation of `do_send` (`src/app.rs` lines 1141-1166): only
when search is enabled and the token is non-blank is `brave_search` invoked,
and only a successful response with at least one result augments the prompt;
every other outcome falls back to the original query.  (A failure of the
client-server RPC itself lands in the same fallback match arm and is not
modelled separately.) -/
def do_send_prompt (search_enabled : Bool) (api_token user_query : String)
    (net : HttpReply) : String :=
  if search_enabled && !(strTrim api_token).isEmpty then
    let search_response := brave_search user_query api_token net
    if search_response.success && !search_response.results.isEmpty then
      augmentContext user_query search_response.results
    else user_query
  else user_query

/-! ## Observables used by the theorems -/

/-- The percent currently stored for `model` (0 when no record exists, the
same default the carry-forward of the tracker uses). -/
def currentPercent (store : Store) (model : String) : ℚ :=
  ((store model).map fun p => p.percent).getD 0

/-- The terminal test of the per-line update:
`status_text == "success" || json.get("error").is_some()`. -/
def lineTerminal (line : PullLine) : Bool :=
  line.status.getD "" == "success" || line.err.present

/-- Whether the update forces `percent = 100`, `status = "Complete"`:
terminal with no string `error` value. -/
def forcedComplete (line : PullLine) : Bool :=
  lineTerminal line && (line.err.asStr).isNone

/-- The fraction `completed / total` a line contributes when it carries size
data (`total > 0`), `none` otherwise. -/
def lineFrac (line : PullLine) : Option ℚ :=
  if 0 < line.total.getD 0 then
    some ((line.completed.getD 0 : ℚ) / (line.total.getD 0 : ℚ))
  else none

/-- The fractions of the size-carrying lines of a stream, in order. -/
def sizeFracs (ls : List PullLine) : List ℚ := ls.filterMap lineFrac

/-- The stored percents observed after each successive line update. -/
def percentTrace (store : Store) (model : String) (now : Int) :
    List PullLine → List ℚ
  | [] => []
  | l :: ls =>
    let s2 := applyPullLine store model l now
    currentPercent s2 model :: percentTrace s2 model now ls

/-- The text carried by a fragment event (`none` for the sentinel). -/
def fragText : SseEvent → Option String
  | .fragment t => some t
  | .sentinel => none

/-- Whether an outbound event is the terminal sentinel. -/
def isSentinel : SseEvent → Bool
  | .sentinel => true
  | _ => false

/-- The `response` field of a generate-stream line (`none` when absent or
when the line failed to parse). -/
def itemResponse : GenItem → Option String
  | .parsed r _ => r
  | .bad => none

/-- The `done` flag of a generate-stream line (`false` for unparseable
lines). -/
def itemDone : GenItem → Bool
  | .parsed _ d => d
  | .bad => false

/-- Whether a generate-stream line parsed as JSON. -/
def itemGood : GenItem → Bool
  | .bad => false
  | _ => true

/-! ## Supporting lemmas -/

/-- What the per-line update stores, field by field. -/
theorem applyPullLine_lookup (store : Store) (model : String)
    (line : PullLine) (now : Int) :
    (applyPullLine store model line now) model = some {
      model := model
      status := if forcedComplete line then "Complete" else line.status.getD ""
      percent :=
        if forcedComplete line then 100
        else if 0 < line.total.getD 0 then
          ((line.completed.getD 0 : ℚ) / (line.total.getD 0 : ℚ)) * 100
        else currentPercent store model
      done := lineTerminal line
      error := line.err.asStr
      bytes_downloaded := line.completed.getD 0
      speed :=
        if line.total.getD 0 > 0 && line.completed.getD 0 > 0 then
          format_bytes (line.completed.getD 0) ++ " / " ++
            format_bytes (line.total.getD 0)
        else if !((((store model).map fun p => p.speed).getD "").isEmpty) then
          (((store model).map fun p => p.speed).getD "")
        else ""
      last_update := now } := by
  simp only [applyPullLine, Store.insert_self, currentPercent, forcedComplete,
    lineTerminal]

/-- The stored percent after one line update. -/
theorem currentPercent_applyPullLine (store : Store) (model : String)
    (line : PullLine) (now : Int) :
    currentPercent (applyPullLine store model line now) model =
      if forcedComplete line then 100
      else if 0 < line.total.getD 0 then
        ((line.completed.getD 0 : ℚ) / (line.total.getD 0 : ℚ)) * 100
      else currentPercent store model := by
  rw [currentPercent, applyPullLine_lookup]
  rfl

/-- Every size fraction is nonnegative. -/
theorem sizeFracs_nonneg (ls : List PullLine) :
    ∀ q ∈ sizeFracs ls, 0 ≤ q := by
  intro q hq
  rw [sizeFracs, List.mem_filterMap] at hq
  obtain ⟨l, _, hl⟩ := hq
  rw [lineFrac] at hl
  split at hl
  · cases hl
    positivity
  · cases hl

/-- C8: a model id that is empty after trimming is rejected synchronously by
`start_model_pull` with a synthesized error record (done = true, status
"Error", a descriptive error message, percent 0), without probing the
daemon, writing to the progress store, or spawning a download task. -/
theorem empty_id_rejected_c8 (store : Store) (model_name : String)
    (h : strTrim model_name = "") :
    start_model_pull store model_name = {
      ret := { model := model_name
               status := "Error"
               percent := 0
               done := true
               error := some "Model name cannot be empty"
               bytes_downloaded := 0
               speed := ""
               last_update := 0 }
      store := store
      probed_daemon := false
      spawned := false } := by
  simp [start_model_pull, h]

theorem empty_id_rejected_witness_c8 :
    start_model_pull emptyStore "  " = {
      ret := { model := "  "
               status := "Error"
               percent := 0
               done := true
               error := some "Model name cannot be empty"
               bytes_downloaded := 0
               speed := ""
               last_update := 0 }
      store := emptyStore
      probed_daemon := false
      spawned := false } :=
  empty_id_rejected_c8 emptyStore "  " (by decide)

/-- C10: cancelling a download for an id with no record in the progress
store still returns `true` and leaves the store unchanged, so a subsequent
poll of that id takes the catalog-probe fallback path (status "Complete" or
"Waiting...") and never reports a cancellation. -/
theorem cancel_unknown_id_c10 (store : Store) (models : List String)
    (model_name : String) (h : store (strTrim model_name) = none) :
    cancel_model_pull store model_name = (store, true) ∧
    (check_pull_progress store models model_name).status ≠ "Cancelled" ∧
    ((check_pull_progress store models model_name).status = "Complete" ∨
      (check_pull_progress store models model_name).status = "Waiting...") := by
  refine ⟨?_, ?_, ?_⟩
  · simp [cancel_model_pull, h]
  · simp only [check_pull_progress, h]
    split <;> simp
  · simp only [check_pull_progress, h]
    split <;> simp

theorem cancel_unknown_id_witness_c10 :
    cancel_model_pull emptyStore "phi3" = (emptyStore, true) ∧
    (check_pull_progress emptyStore ["llama3:8b"] "phi3").status ≠ "Cancelled" ∧
    ((check_pull_progress emptyStore ["llama3:8b"] "phi3").status = "Complete" ∨
      (check_pull_progress emptyStore ["llama3:8b"] "phi3").status = "Waiting...") :=
  cancel_unknown_id_c10 emptyStore ["llama3:8b"] "phi3" (by rfl)

/-- C5: polling an id with no stored record and no installed catalog entry
starting with or containing the id yields status "Waiting...", percent 0,
done = false, no error; with a matching installed entry it yields status
"Complete", percent 100, done = true, no error; and a stored record is
returned unchanged. -/
theorem check_pull_progress_cases_c5 (store : Store) (models : List String)
    (model_name : String) :
    (store (strTrim model_name) = none →
      modelMatches models (strTrim model_name) = false →
      check_pull_progress store models model_name = {
        model := strTrim model_name
        status := "Waiting..."
        percent := 0
        done := false
        error := none
        bytes_downloaded := 0
        speed := ""
        last_update := 0 }) ∧
    (store (strTrim model_name) = none →
      modelMatches models (strTrim model_name) = true →
      check_pull_progress store models model_name = {
        model := strTrim model_name
        status := "Complete"
        percent := 100
        done := true
        error := none
        bytes_downloaded := 0
        speed := ""
        last_update := 0 }) ∧
    (∀ p, store (strTrim model_name) = some p →
      check_pull_progress store models model_name = p) := by
  refine ⟨fun h1 h2 => ?_, fun h1 h2 => ?_, fun p hp => ?_⟩
  · simp [check_pull_progress, h1, h2]
  · simp [check_pull_progress, h1, h2]
  · simp [check_pull_progress, hp]

theorem check_pull_progress_witness_c5 :
    check_pull_progress emptyStore [] "mistral" = {
      model := "mistral"
      status := "Waiting..."
      percent := 0
      done := false
      error := none
      bytes_downloaded := 0
      speed := ""
      last_update := 0 } ∧
    check_pull_progress emptyStore ["llama3:8b"] "llama3" = {
      model := "llama3"
      status := "Complete"
      percent := 100
      done := true
      error := none
      bytes_downloaded := 0
      speed := ""
      last_update := 0 } ∧
    check_pull_progress (Store.insert emptyStore "m" (startingRecord "m")) []
      "m" = startingRecord "m" :=
  ⟨(check_pull_progress_cases_c5 emptyStore [] "mistral").1 rfl (by decide),
   (check_pull_progress_cases_c5 emptyStore ["llama3:8b"] "llama3").2.1 rfl
     (by decide),
   (check_pull_progress_cases_c5 (Store.insert emptyStore "m"
       (startingRecord "m")) [] "m").2.2 (startingRecord "m") (by rfl)⟩

/-- C4 (amended): only when the upstream pull request cannot be opened does
the tracker write the synthetic terminal record with status "Error",
done = true and the transport failure reason as error; a read error after
the connection opened is silently skipped, so a drop mid-stream writes no
synthetic record (a trailing read error leaves the store exactly as the
successfully processed chunks left it). -/
theorem transport_failure_record_c4 (store : Store) (model msg : String)
    (now : Int) (chunks : List Chunk) :
    (runTracker store model (.failed msg) now) model = some {
      model := model
      status := "Error"
      percent := 0
      done := true
      error := some msg
      bytes_downloaded := 0
      speed := ""
      last_update := 0 } ∧
    runTracker store model (.opened (chunks ++ [Chunk.readErr])) now =
      runTracker store model (.opened chunks) now := by
  constructor
  · simp [runTracker]
  · simp [runTracker, List.foldl_append, applyChunk]

/-- C4 counterexample: the connection opens, delivers one non-terminal
"downloading" line, then drops (a read error followed by stream end).  The
claim requires a terminal record with status "Error" and done = true; the
code instead leaves the last line-derived record, done = false and status
"downloading", so a poller of this id waits forever. -/
theorem stream_drop_nonterminal_counterexample_c4 :
    ((runTracker (Store.insert emptyStore "m" (startingRecord "m")) "m"
        (.opened [Chunk.ok [LineItem.parsed
          { status := some "downloading", total := some 1000,
            completed := some 250, err := .absent }], Chunk.readErr]) 5) "m").map
      (fun p => (p.done, p.status)) = some (false, "downloading") := by
  decide

/-- C1: evidence of the code bug.  After `cancel_model_pull` stores the
terminal record (done = true, status "Cancelled", error set), a late
upstream line `{"status":"pulling manifest"}` processed by the tracker
overwrites it unconditionally: done reverts to false, status becomes
"pulling manifest" and the error is cleared — the terminal record is not
preserved as the claim requires. -/
theorem terminal_record_overwritten_c1 :
    (((cancel_model_pull (Store.insert emptyStore "m" (startingRecord "m"))
        "m").1 "m").map fun p => (p.done, p.status, p.error)) =
      some (true, "Cancelled", some "Download cancelled by user") ∧
    (((applyPullLine
        (cancel_model_pull (Store.insert emptyStore "m" (startingRecord "m"))
          "m").1 "m"
        { status := some "pulling manifest", total := none, completed := none,
          err := .absent } 9) "m").map fun p => (p.done, p.status, p.error)) =
      some (false, "pulling manifest", none) := by
  constructor
  · decide
  · decide
/-- C6 counterexample: on the upstream line sequence `{"done":true}` then
`{"response":"x"}` the relay emits the sentinel and then a further fragment
"x".  The claim says the relay stops at the first done-true object and
emits nothing after the first sentinel; the loop in the code has no
`break` statement, so it keeps relaying. -/
theorem relay_continues_after_sentinel_counterexample_c6 :
    stream_handler [GenItem.parsed none true, GenItem.parsed (some "x") false] =
      [SseEvent.sentinel, SseEvent.fragment "x"] := by
  decide

/-- C6 (amended): the relay emits one fragment per parsed object carrying a
`response` field, in order; it emits one sentinel per parsed object whose
`done` field is true (so it does not stop at the first sentinel, and later
fragments and sentinels are still emitted); and lines that fail to parse as
JSON are skipped without affecting the emitted events. -/
theorem relay_events_characterization_c6 (ls : List GenItem) :
    (stream_handler ls).filterMap fragText = ls.filterMap itemResponse ∧
    (stream_handler ls).countP isSentinel = ls.countP itemDone ∧
    stream_handler (ls.filter itemGood) = stream_handler ls := by
  induction ls with
  | nil => exact ⟨rfl, rfl, rfl⟩
  | cons l ls ih =>
    obtain ⟨ih1, ih2, ih3⟩ := ih
    refine ⟨?_, ?_, ?_⟩
    · cases l with
      | bad => simpa [stream_handler, relayLine, itemResponse] using ih1
      | parsed r d =>
        cases r <;> cases d <;>
          simp_all [stream_handler, relayLine, itemResponse, fragText]
    · cases l with
      | bad => simpa [stream_handler, relayLine, itemDone] using ih2
      | parsed r d =>
        cases r <;> cases d <;>
          simp_all [stream_handler, relayLine, itemDone, isSentinel,
            List.countP_append, List.countP_cons]
    · cases l with
      | bad => simpa [stream_handler, relayLine, itemGood] using ih3
      | parsed r d =>
        simp only [List.filter, itemGood, stream_handler]
        rw [ih3]

/-- C2: the pull stream `{"status":"downloading","total":1000,
"completed":250}`, `{"status":"downloading"}`, `{"status":"success"}`
applied to a fresh record stores percents 25, then 25 (carried forward),
then 100 with status "Complete" and done = true; and in general a
non-terminal-success update stores percent = completed/total · 100 when
total > 0 and carries the previous percent forward when total is absent or
zero (a clean terminal success instead forces percent 100, as the last
step of the example shows). -/
theorem pull_percent_example_and_rule_c2 :
    (currentPercent (applyPullLine
        (Store.insert emptyStore "m" (startingRecord "m")) "m"
        ⟨some "downloading", some 1000, some 250, .absent⟩ 1) "m" = 25 ∧
     currentPercent (applyPullLine (applyPullLine
        (Store.insert emptyStore "m" (startingRecord "m")) "m"
        ⟨some "downloading", some 1000, some 250, .absent⟩ 1) "m"
        ⟨some "downloading", none, none, .absent⟩ 2) "m" = 25 ∧
     ((applyPullLine (applyPullLine (applyPullLine
        (Store.insert emptyStore "m" (startingRecord "m")) "m"
        ⟨some "downloading", some 1000, some 250, .absent⟩ 1) "m"
        ⟨some "downloading", none, none, .absent⟩ 2) "m"
        ⟨some "success", none, none, .absent⟩ 3) "m").map
       (fun p => (p.percent, p.status, p.done)) =
         some (100, "Complete", true)) ∧
    (∀ (store : Store) (model : String) (line : PullLine) (now : Int),
      forcedComplete line = false →
      ((0 < line.total.getD 0 →
        currentPercent (applyPullLine store model line now) model =
          ((line.completed.getD 0 : ℚ) / (line.total.getD 0 : ℚ)) * 100) ∧
       (line.total.getD 0 = 0 →
        currentPercent (applyPullLine store model line now) model =
          currentPercent store model))) := by
  have hfc1 : forcedComplete ⟨some "downloading", some 1000, some 250,
      .absent⟩ = false := by decide
  have hfc2 : forcedComplete (⟨some "downloading", none, none, .absent⟩ :
      PullLine) = false := by decide
  constructor
  · have h1 : currentPercent (applyPullLine
        (Store.insert emptyStore "m" (startingRecord "m")) "m"
        ⟨some "downloading", some 1000, some 250, .absent⟩ 1) "m" = 25 := by
      rw [currentPercent_applyPullLine, hfc1]
      norm_num
    have h2 : currentPercent (applyPullLine (applyPullLine
        (Store.insert emptyStore "m" (startingRecord "m")) "m"
        ⟨some "downloading", some 1000, some 250, .absent⟩ 1) "m"
        ⟨some "downloading", none, none, .absent⟩ 2) "m" = 25 := by
      rw [currentPercent_applyPullLine, hfc2]
      simpa using h1
    refine ⟨h1, h2, ?_⟩
    rw [applyPullLine_lookup]
    have hfc3 : forcedComplete (⟨some "success", none, none, .absent⟩ :
        PullLine) = true := by decide
    have hlt3 : lineTerminal (⟨some "success", none, none, .absent⟩ :
        PullLine) = true := by decide
    simp [hfc3, hlt3, ErrField.asStr]
  · intro store model line now hfc
    constructor
    · intro ht
      rw [currentPercent_applyPullLine, hfc]
      simp [ht]
    · intro ht
      rw [currentPercent_applyPullLine, hfc]
      simp [ht]

theorem pull_percent_rule_witness_c2 :
    forcedComplete (⟨some "downloading", some 4, some 1, .absent⟩ : PullLine) =
      false ∧
    currentPercent (applyPullLine emptyStore "m"
      ⟨some "downloading", some 4, some 1, .absent⟩ 0) "m" = 25 := by
  constructor
  · decide
  · have h := (pull_percent_example_and_rule_c2.2 emptyStore "m"
      ⟨some "downloading", some 4, some 1, .absent⟩ 0 (by decide)).1
      (by decide)
    rw [h]
    norm_num
/-- C7 counterexample: after a line stores percent 25, a mid-stream line
`{"status":"downloading","total":5000}` — size present but `completed`
absent, read as 0 — stores percent 0/5000 · 100 = 0, resetting an
already-positive percent to 0 other than at record creation, contrary to
the claim. -/
theorem percent_reset_midstream_counterexample_c7 :
    currentPercent (applyPullLine
      (Store.insert emptyStore "m" (startingRecord "m")) "m"
      ⟨some "downloading", some 1000, some 250, .absent⟩ 1) "m" = 25 ∧
    currentPercent (applyPullLine (applyPullLine
      (Store.insert emptyStore "m" (startingRecord "m")) "m"
      ⟨some "downloading", some 1000, some 250, .absent⟩ 1) "m"
      ⟨some "downloading", some 5000, none, .absent⟩ 2) "m" = 0 := by
  have hfc1 : forcedComplete ⟨some "downloading", some 1000, some 250,
      .absent⟩ = false := by decide
  have hfc2 : forcedComplete ⟨some "downloading", some 5000, none,
      .absent⟩ = false := by decide
  constructor
  · rw [currentPercent_applyPullLine, hfc1]
    norm_num
  · rw [currentPercent_applyPullLine, hfc2]
    norm_num

/-- C7 (amended): a line lacking size fields (total absent or 0) never
resets an already-positive percent to 0 (it carries the percent forward, or
forces 100 on clean success); and the transport-failure terminal write,
which only happens when the connection could not be opened, finds the
freshly initialized record still at percent 0 and leaves percent 0, so it
never destroys positive progress.  A line with total > 0 and completed
read as 0 can, however, reset percent to 0 (see the counterexample). -/
theorem no_size_line_keeps_positive_percent_c7 :
    (∀ (store : Store) (model : String) (line : PullLine) (now : Int),
      line.total.getD 0 = 0 → 0 < currentPercent store model →
      0 < currentPercent (applyPullLine store model line now) model) ∧
    (∀ (store : Store) (model_name msg : String) (now : Int),
      strTrim model_name ≠ "" →
      currentPercent (start_model_pull store model_name).store
        (strTrim model_name) = 0 ∧
      currentPercent (runTracker (start_model_pull store model_name).store
        (strTrim model_name) (.failed msg) now) (strTrim model_name) = 0) := by
  constructor
  · intro store model line now ht hpos
    rw [currentPercent_applyPullLine]
    by_cases hfc : forcedComplete line = true
    · rw [if_pos hfc]
      norm_num
    · rw [if_neg hfc, ht]
      simpa using hpos
  · intro store model_name msg now hne
    constructor
    · simp [start_model_pull, hne, currentPercent, startingRecord]
    · simp [start_model_pull, hne, runTracker, currentPercent]

theorem no_size_line_keeps_positive_percent_witness_c7 :
    ((⟨some "downloading", none, none, .absent⟩ : PullLine).total.getD 0 = 0 ∧
     0 < currentPercent (applyPullLine
       (Store.insert emptyStore "m" (startingRecord "m")) "m"
       ⟨some "downloading", some 1000, some 250, .absent⟩ 1) "m" ∧
     0 < currentPercent (applyPullLine (applyPullLine
       (Store.insert emptyStore "m" (startingRecord "m")) "m"
       ⟨some "downloading", some 1000, some 250, .absent⟩ 1) "m"
       ⟨some "downloading", none, none, .absent⟩ 2) "m") ∧
    (strTrim "llama3" ≠ "" ∧
     currentPercent (start_model_pull emptyStore "llama3").store
       (strTrim "llama3") = 0 ∧
     currentPercent (runTracker (start_model_pull emptyStore "llama3").store
       (strTrim "llama3") (.failed "connection refused") 4)
       (strTrim "llama3") = 0) := by
  have h25 : currentPercent (applyPullLine
      (Store.insert emptyStore "m" (startingRecord "m")) "m"
      ⟨some "downloading", some 1000, some 250, .absent⟩ 1) "m" = 25 := by
    have hfc1 : forcedComplete ⟨some "downloading", some 1000, some 250,
        .absent⟩ = false := by decide
    rw [currentPercent_applyPullLine, hfc1]
    norm_num
  have hpos : 0 < currentPercent (applyPullLine
      (Store.insert emptyStore "m" (startingRecord "m")) "m"
      ⟨some "downloading", some 1000, some 250, .absent⟩ 1) "m" := by
    rw [h25]
    norm_num
  refine ⟨⟨by decide, hpos, ?_⟩, ?_⟩
  · exact no_size_line_keeps_positive_percent_c7.1 _ "m"
      ⟨some "downloading", none, none, .absent⟩ 2 (by decide) hpos
  · refine ⟨by decide, ?_⟩
    exact no_size_line_keeps_positive_percent_c7.2 emptyStore "llama3"
      "connection refused" 4 (by decide)

/-- C9: with a blank (trimmed-empty) search credential the prompt sent to
the relay equals the original user query and the search result does not
depend on the network at all (no network call); and on any provider
failure — transport error, non-2xx status, malformed payload, or zero
extracted results — the prompt likewise falls back to the original query
rather than surfacing an error. -/
theorem augmentation_fallback_c9 (search_enabled : Bool)
    (api_token user_query : String) :
    ((strTrim api_token).isEmpty = true →
      (∀ net, do_send_prompt search_enabled api_token user_query net =
        user_query) ∧
      (∀ net net2, brave_search user_query api_token net =
        brave_search user_query api_token net2)) ∧
    (∀ msg, do_send_prompt search_enabled api_token user_query
      (.sendErr msg) = user_query) ∧
    (∀ status body, is2xx status = false →
      do_send_prompt search_enabled api_token user_query
        (.reply status body) = user_query) ∧
    (∀ status, do_send_prompt search_enabled api_token user_query
      (.reply status none) = user_query) ∧
    (∀ status payload, extractResults payload = [] →
      do_send_prompt search_enabled api_token user_query
        (.reply status (some payload)) = user_query) := by
  by_cases hb : (strTrim api_token).isEmpty
  · refine ⟨fun _ => ⟨fun net => ?_, fun net net2 => ?_⟩, fun msg => ?_,
      fun status body _ => ?_, fun status => ?_, fun status payload _ => ?_⟩ <;>
      simp [do_send_prompt, brave_search, hb]
  · refine ⟨fun h => absurd h hb, fun msg => ?_, fun status body h2 => ?_,
      fun status => ?_, fun status payload hz => ?_⟩
    · simp [do_send_prompt, brave_search, hb]
    · simp [do_send_prompt, brave_search, hb, h2]
    · by_cases h2 : is2xx status <;>
        simp [do_send_prompt, brave_search, hb, h2]
    · by_cases h2 : is2xx status <;>
        simp [do_send_prompt, brave_search, hb, h2, hz]

theorem augmentation_fallback_witness_c9 :
    (strTrim " ").isEmpty = true ∧
    do_send_prompt true " " "what is rust"
      (.reply 200 (some ⟨some [⟨some "t", some "u", some "d"⟩]⟩)) =
      "what is rust" ∧
    do_send_prompt true "tok" "what is rust" (.sendErr "timeout") =
      "what is rust" ∧
    is2xx 503 = false ∧
    do_send_prompt true "tok" "what is rust"
      (.reply 503 (some ⟨some [⟨some "t", some "u", some "d"⟩]⟩)) =
      "what is rust" ∧
    do_send_prompt true "tok" "what is rust" (.reply 200 none) =
      "what is rust" ∧
    extractResults ⟨some []⟩ = [] ∧
    do_send_prompt true "tok" "what is rust" (.reply 200 (some ⟨some []⟩)) =
      "what is rust" := by
  refine ⟨by decide, ?_, ?_, by decide, ?_, ?_, by decide, ?_⟩
  · exact ((augmentation_fallback_c9 true " " "what is rust").1
      (by decide)).1 _
  · exact (augmentation_fallback_c9 true "tok" "what is rust").2.1 "timeout"
  · exact (augmentation_fallback_c9 true "tok" "what is rust").2.2.1 503 _
      (by decide)
  · exact (augmentation_fallback_c9 true "tok" "what is rust").2.2.2.1 200
  · exact (augmentation_fallback_c9 true "tok" "what is rust").2.2.2.2 200
      ⟨some []⟩ (by decide)
/-- C3 counterexample: the consecutive lines `{"total":1000,
"completed":500}` then `{"total":1000,"completed":100}` applied to a fresh
record store percents 50 then 10: the second stored percent is strictly
below the first, so the stored percent is not monotonically non-decreasing
across consecutive updates. -/
theorem percent_not_monotone_counterexample_c3 :
    currentPercent (applyPullLine
      (Store.insert emptyStore "m" (startingRecord "m")) "m"
      ⟨some "downloading", some 1000, some 500, .absent⟩ 1) "m" = 50 ∧
    currentPercent (applyPullLine (applyPullLine
      (Store.insert emptyStore "m" (startingRecord "m")) "m"
      ⟨some "downloading", some 1000, some 500, .absent⟩ 1) "m"
      ⟨some "downloading", some 1000, some 100, .absent⟩ 2) "m" = 10 ∧
    currentPercent (applyPullLine (applyPullLine
      (Store.insert emptyStore "m" (startingRecord "m")) "m"
      ⟨some "downloading", some 1000, some 500, .absent⟩ 1) "m"
      ⟨some "downloading", some 1000, some 100, .absent⟩ 2) "m" <
    currentPercent (applyPullLine
      (Store.insert emptyStore "m" (startingRecord "m")) "m"
      ⟨some "downloading", some 1000, some 500, .absent⟩ 1) "m" := by
  have hfc1 : forcedComplete ⟨some "downloading", some 1000, some 500,
      .absent⟩ = false := by decide
  have hfc2 : forcedComplete ⟨some "downloading", some 1000, some 100,
      .absent⟩ = false := by decide
  have h1 : currentPercent (applyPullLine
      (Store.insert emptyStore "m" (startingRecord "m")) "m"
      ⟨some "downloading", some 1000, some 500, .absent⟩ 1) "m" = 50 := by
    rw [currentPercent_applyPullLine, hfc1]
    norm_num
  have h2 : currentPercent (applyPullLine (applyPullLine
      (Store.insert emptyStore "m" (startingRecord "m")) "m"
      ⟨some "downloading", some 1000, some 500, .absent⟩ 1) "m"
      ⟨some "downloading", some 1000, some 100, .absent⟩ 2) "m" = 10 := by
    rw [currentPercent_applyPullLine, hfc2]
    norm_num
  refine ⟨h1, h2, ?_⟩
  rw [h1, h2]
  norm_num

/-- Auxiliary invariant-carrying induction for C3: if the stored percent is
at most 100 and at most the first upcoming size fraction (scaled), and the
size fractions are a nondecreasing chain bounded by 1, with terminal lines
only in last position, then the stored percents form a nondecreasing
chain. -/
theorem percentTrace_chain_aux (model : String) (now : Int)
    (ls : List PullLine) :
    ∀ (store : Store),
      currentPercent store model ≤ 100 →
      (∀ q, (sizeFracs ls).head? = some q →
        currentPercent store model ≤ q * 100) →
      List.Chain' (· ≤ ·) (sizeFracs ls) →
      (∀ q ∈ sizeFracs ls, q ≤ 1) →
      (∀ l ∈ ls.dropLast, lineTerminal l = false) →
      List.Chain' (· ≤ ·)
        (currentPercent store model :: percentTrace store model now ls) := by
  induction ls with
  | nil =>
    intro store _ _ _ _ _
    simp [percentTrace]
  | cons l ls ih =>
    intro store hp100 hhead hchain hbound hterm
    simp only [percentTrace]
    rw [List.chain'_cons]
    by_cases hT : lineTerminal l = true
    · have hls : ls = [] := by
        cases ls with
        | nil => rfl
        | cons x t =>
          exfalso
          have hmem : l ∈ (l :: x :: t).dropLast := by
            simp [List.dropLast]
          have := hterm l hmem
          rw [hT] at this
          simp at this
      subst hls
      refine ⟨?_, by simp [percentTrace]⟩
      rw [currentPercent_applyPullLine]
      by_cases hfc : forcedComplete l = true
      · rw [if_pos hfc]
        exact hp100
      · rw [if_neg hfc]
        by_cases htot : 0 < l.total.getD 0
        · rw [if_pos htot]
          apply hhead
          simp [sizeFracs, lineFrac, htot]
        · rw [if_neg htot]
    · have hTf : lineTerminal l = false := by
        cases h : lineTerminal l
        · rfl
        · exact absurd h hT
      have hfc : forcedComplete l = false := by
        rw [forcedComplete, hTf, Bool.false_and]
      by_cases htot : 0 < l.total.getD 0
      · have hfrac : lineFrac l =
            some ((l.completed.getD 0 : ℚ) / (l.total.getD 0 : ℚ)) := by
          rw [lineFrac, if_pos htot]
        have hsf : sizeFracs (l :: ls) =
            ((l.completed.getD 0 : ℚ) / (l.total.getD 0 : ℚ)) ::
              sizeFracs ls := by
          simp [sizeFracs, hfrac]
        have hp2 : currentPercent (applyPullLine store model l now) model =
            ((l.completed.getD 0 : ℚ) / (l.total.getD 0 : ℚ)) * 100 := by
          rw [currentPercent_applyPullLine, hfc]
          simp [htot]
        rw [hsf] at hchain hbound
        rw [List.chain'_cons'] at hchain
        refine ⟨?_, ?_⟩
        · rw [hp2]
          apply hhead
          rw [hsf, List.head?_cons]
        · apply ih
          · rw [hp2]
            have hf1 : (l.completed.getD 0 : ℚ) / (l.total.getD 0 : ℚ) ≤ 1 :=
              hbound _ (List.mem_cons_self _ _)
            calc ((l.completed.getD 0 : ℚ) / (l.total.getD 0 : ℚ)) * 100
                ≤ 1 * 100 :=
                  mul_le_mul_of_nonneg_right hf1 (by norm_num)
              _ = 100 := by norm_num
          · intro q hq
            rw [hp2]
            have hfq : (l.completed.getD 0 : ℚ) / (l.total.getD 0 : ℚ) ≤ q :=
              hchain.1 q (by rw [hq]; rfl)
            exact mul_le_mul_of_nonneg_right hfq (by norm_num)
          · exact hchain.2
          · intro q hq
            exact hbound q (List.mem_cons_of_mem _ hq)
          · intro x hx
            apply hterm
            cases ls with
            | nil => simp at hx
            | cons y t =>
              simp only [List.dropLast]
              exact List.mem_cons_of_mem _ hx
      · have hfrac : lineFrac l = none := by
          rw [lineFrac, if_neg htot]
        have hsf : sizeFracs (l :: ls) = sizeFracs ls := by
          simp [sizeFracs, hfrac]
        have hp2 : currentPercent (applyPullLine store model l now) model =
            currentPercent store model := by
          rw [currentPercent_applyPullLine, hfc]
          simp [htot]
        rw [hsf] at hchain hbound
        refine ⟨le_of_eq hp2.symm, ?_⟩
        apply ih
        · rw [hp2]
          exact hp100
        · intro q hq
          rw [hp2]
          exact hhead q (by rw [hsf]; exact hq)
        · exact hchain
        · exact hbound
        · intro x hx
          apply hterm
          cases ls with
          | nil => simp at hx
          | cons y t =>
            simp only [List.dropLast]
            exact List.mem_cons_of_mem _ hx

/-- C3 (amended): the stored percent is monotonically non-decreasing from a
fresh record provided the completed/total fractions of the size-carrying
lines are themselves non-decreasing and at most 1, and any terminal line
appears only in last position — a size-carrying line whose fraction is
lower than its predecessor decreases percent (see the counterexample). -/
theorem percent_monotone_of_monotone_fracs_c3 (store : Store) (model : String)
    (now : Int) (ls : List PullLine)
    (h0 : currentPercent store model = 0)
    (hchain : List.Chain' (· ≤ ·) (sizeFracs ls))
    (hbound : ∀ q ∈ sizeFracs ls, q ≤ 1)
    (hterm : ∀ l ∈ ls.dropLast, lineTerminal l = false) :
    List.Chain' (· ≤ ·)
      (currentPercent store model :: percentTrace store model now ls) := by
  apply percentTrace_chain_aux model now ls store
  · rw [h0]
    norm_num
  · intro q hq
    rw [h0]
    have hqmem : q ∈ sizeFracs ls := by
      cases hsf : sizeFracs ls with
      | nil => rw [hsf] at hq; cases hq
      | cons a t =>
        rw [hsf] at hq
        simp only [List.head?] at hq
        cases hq
        exact List.mem_cons_self _ _
    have hq0 : 0 ≤ q := sizeFracs_nonneg ls q hqmem
    exact mul_nonneg hq0 (by norm_num)
  · exact hchain
  · exact hbound
  · exact hterm

theorem percent_monotone_witness_c3 :
    currentPercent (Store.insert emptyStore "m" (startingRecord "m")) "m" =
      0 ∧
    List.Chain' (· ≤ ·) (sizeFracs
      [⟨some "downloading", some 1000, some 250, .absent⟩,
       ⟨some "downloading", none, none, .absent⟩,
       ⟨some "success", none, none, .absent⟩]) ∧
    List.Chain' (· ≤ ·)
      (currentPercent (Store.insert emptyStore "m" (startingRecord "m")) "m" ::
        percentTrace (Store.insert emptyStore "m" (startingRecord "m")) "m" 1
          [⟨some "downloading", some 1000, some 250, .absent⟩,
           ⟨some "downloading", none, none, .absent⟩,
           ⟨some "success", none, none, .absent⟩]) := by
  have h0 : currentPercent (Store.insert emptyStore "m" (startingRecord "m"))
      "m" = 0 := by
    simp [currentPercent, startingRecord]
  have hchain : List.Chain' (· ≤ ·) (sizeFracs
      [⟨some "downloading", some 1000, some 250, .absent⟩,
       ⟨some "downloading", none, none, .absent⟩,
       ⟨some "success", none, none, .absent⟩]) := by
    simp [sizeFracs, lineFrac]
  refine ⟨h0, hchain, ?_⟩
  apply percent_monotone_of_monotone_fracs_c3 _ "m" 1 _ h0 hchain
  · intro q hq
    simp [sizeFracs, lineFrac] at hq
    rw [hq]
    norm_num
  · intro l hl
    fin_cases hl <;> decide
end OllamaRust
